import Mathlib

/-!
Shallow embedding of the order → kitchen-ticket fan-out and status machinery of
the `restaurant_pos` Frappe app.

Sources embedded here:
* `restaurant_pos/api/order.py` — `validate_order_items`, the totals block of
  `place_order`, `create_kitchen_orders`, `create_kitchen_orders_for_items`;
* `restaurant_pos/api/kitchen.py` — `update_order_status` (document-mutation
  part), `update_restaurant_order_status` (reconciler), `bump_order`,
  `recall_order`;
* `restaurant_pos/doctype/restaurant_order/restaurant_order.py` —
  `calculate_totals`.

Modelling conventions:
* Status fields are free-form strings in the source (Frappe documents), so they
  are `String` here.
* Money is `ℚ`; frappe's `flt(x)` with no precision argument is a cast to
  float, modelled as the identity on `ℚ`.
* Timestamps (`now_datetime()`) are an abstract instant `t : Nat` threaded into
  each operation; stored timestamps are `Option Nat` (`None` ↦ `none`).
* Python truthiness on optional numbers (`x or d`, `if x:`) treats both `None`
  and `0` as falsy; helpers `orFalsyQ` / `orFalsyNat` reproduce this.
* Database writes, realtime notifications, commits and logging are side
  channels irrelevant to the claims; document mutations are modelled as pure
  functions from old state (plus the current instant) to new state.
* Inert copied fields that no claim observes (table, branch, localized names,
  modifiers payloads, ...) are omitted from the records; every field that any
  embedded function reads or writes is present.
-/

namespace RestaurantPos

/-- Python `x or d` on an optional number: `None` and `0` are falsy. -/
def orFalsyQ (x : Option ℚ) (d : ℚ) : ℚ :=
  match x with
  | none => d
  | some v => if v = 0 then d else v

/-- Python `x or d` on an optional natural (e.g. preparation minutes). -/
def orFalsyNat (x : Option Nat) (d : Nat) : Nat :=
  match x with
  | none => d
  | some v => if v = 0 then d else v

/-- Python `a or b` on optional strings (`item.get("item") or item.get("menu_item")`);
the source never passes empty-string keys, so only `None` is falsy here. -/
def orOptStr (a b : Option String) : Option String :=
  match a with
  | some s => some s
  | none => b

/-- frappe `flt` with no precision: float cast, identity on our exact numbers. -/
def flt (x : ℚ) : ℚ := x

/-- A line of a `Kitchen Order` (child doctype `Kitchen Order Item`).
`name` is the framework-assigned row id used by the single-line update;
`order_item` is the optional back-reference to a `Restaurant Order Item` row. -/
structure KOTItem where
  name : String
  order_item : Option String
  menu_item : String
  item_name : String
  qty : Int
  status : String
  started_at : Option Nat
  completed_at : Option Nat
  deriving Repr, DecidableEq

/-- A `Kitchen Order` (ticket, KOT) document. -/
structure KOT where
  name : String
  restaurant_order : String
  kitchen_station : String
  status : String
  priority : String
  is_additional : Bool
  started_at : Option Nat
  completed_at : Option Nat
  served_at : Option Nat
  items : List KOTItem
  deriving Repr, DecidableEq

/-! ### kitchen.py: `update_order_status` (document mutation) -/

/-- The `for item in kot.items: if item.name == item_id: ...; break` loop of
`update_order_status`: update the first line whose row name is `item_id`,
stamping a start/completion time for `Preparing`/`Ready`. -/
def updateMatchingItem (item_id status : String) (t : Nat) :
    List KOTItem → List KOTItem
  | [] => []
  | i :: rest =>
    if i.name = item_id then
      { i with
        status := status
        started_at := if status = "Preparing" then some t else i.started_at
        completed_at := if status = "Ready" then some t else i.completed_at
        } :: rest
    else
      i :: updateMatchingItem item_id status t rest

/-- `update_order_status(kot_id, status, item_id)` from `api/kitchen.py`,
restricted to its mutation of the loaded `Kitchen Order` document (the
follow-up reconciler call is `update_restaurant_order_status` below).
`item_id = some iid` is the single-line branch, `none` the whole-ticket
branch. -/
def update_order_status (kot : KOT) (status : String) (item_id : Option String)
    (t : Nat) : KOT :=
  match item_id with
  | some iid =>
    let items := updateMatchingItem iid status t kot.items
    if items.all (fun i => i.status = "Ready") then
      { kot with items := items, status := "Ready", completed_at := some t }
    else
      { kot with items := items }
  | none =>
    if status = "Preparing" then
      { kot with
        status := status
        started_at := some t
        items := kot.items.map fun i =>
          if i.status = "Pending" then
            { i with status := "Preparing", started_at := some t }
          else i }
    else if status = "Ready" then
      { kot with
        status := status
        completed_at := some t
        items := kot.items.map fun i =>
          if i.status = "Ready" then i
          else { i with status := "Ready", completed_at := some t } }
    else
      { kot with status := status }

/-! ### kitchen.py: `update_restaurant_order_status` (reconciler) -/

/-- The status-derivation chain of `update_restaurant_order_status`
(first match wins). -/
def reconcile_status (statuses : List String) : String :=
  if statuses.all (fun s => s = "Ready") then "Ready"
  else if statuses.any (fun s => s = "Preparing") then "Preparing"
  else if statuses.all (fun s => s = "New") then "Confirmed"
  else "Preparing"

/-- The list guarding the order write:
`if order.status not in ["Served", "Completed", "Cancelled", "Paid"]`. -/
def sticky_statuses : List String := ["Served", "Completed", "Cancelled", "Paid"]

/-- `update_restaurant_order_status(order_name)` as a function from the order's
current status and the statuses of all its Kitchen Orders to the order's new
status: no tickets → early return; sticky status → not overwritten; otherwise
the derived status is written. -/
def update_restaurant_order_status (orderStatus : String)
    (kotStatuses : List String) : String :=
  if kotStatuses.isEmpty then orderStatus
  else if orderStatus ∈ sticky_statuses then orderStatus
  else reconcile_status kotStatuses

/-! ### kitchen.py: `bump_order` and `recall_order` -/

/-- The `Kitchen Order` mutation of `bump_order`: ticket `Served`, served
timestamp stamped, every line `Served`. -/
def bump_kot (kot : KOT) (t : Nat) : KOT :=
  { kot with
    status := "Served"
    served_at := some t
    items := kot.items.map fun i => { i with status := "Served" } }

/-- `bump_order`'s follow-up write of the parent `Restaurant Order` status:
after saving the bumped ticket it sets the order to `"Served"` when no ticket
of the order has a status outside `["Served", "Cancelled"]`, with no check of
the order's current status. `otherKotStatuses` are the statuses of the order's
other tickets (the bumped one is already `"Served"` at query time). -/
def bump_order_status_write (otherKotStatuses : List String)
    (orderStatus : String) : String :=
  if otherKotStatuses.all (fun s => s = "Served" ∨ s = "Cancelled") then "Served"
  else orderStatus

/-- The `Restaurant Order Item` rows that `bump_order` sets to `"Served"`:
the loop over `kot.items` keeps only lines carrying an `order_item`
back-reference. -/
def bump_order_item_writes (kot : KOT) (t : Nat) : List String :=
  (bump_kot kot t).items.filterMap fun i => i.order_item

/-- The effect of `bump_order`'s `Restaurant Order Item` writes on the
order-item status assignment (row name → status). -/
def apply_bump_order_item_writes (kot : KOT) (t : Nat)
    (itemStatus : String → String) : String → String :=
  fun n => if n ∈ bump_order_item_writes kot t then "Served" else itemStatus n

/-- The `Kitchen Order` mutation of `recall_order`: ticket back to `Ready`,
served timestamp cleared, every line reset to `Ready`. -/
def recall_kot (kot : KOT) : KOT :=
  { kot with
    status := "Ready"
    served_at := none
    items := kot.items.map fun i => { i with status := "Ready" } }

/-- `recall_order`'s write of the parent `Restaurant Order` status:
`frappe.db.set_value(..., "status", "Ready")` unconditionally — the current
order status (the argument) is never consulted. -/
def recall_order_status_write (_orderStatus : String) : String := "Ready"

/-! ### order.py: `validate_order_items` -/

/-- A modifier entry of a requested line (`mod.get("additional_price")`;
the truthiness guard in the source only skips adding `None`/`0`, which adds
nothing either way, so the price defaults to `0`). -/
structure Modifier where
  additional_price : Option ℚ
  deriving Repr, DecidableEq

/-- A requested entry of the `items` payload, after the source's coercions
(`qty = cint(item.get("qty", 1))`). -/
structure RequestedItem where
  item : Option String
  menu_item : Option String
  qty : Int
  modifiers : List Modifier
  notes : String
  deriving Repr, DecidableEq

/-- The `Menu Item` fields fetched by `validate_order_items`. -/
structure MenuItem where
  name : String
  item_code : String
  item_name : String
  item_name_ar : String
  price : ℚ
  enabled : Bool
  kitchen_station : Option String
  preparation_time_minutes : Option Nat
  deriving Repr, DecidableEq

/-- A validated line as assembled by `validate_order_items`. -/
structure ValidatedItem where
  menu_item : String
  item_code : String
  item_name : String
  item_name_ar : String
  qty : Int
  rate : ℚ
  total : ℚ
  modifiers : List Modifier
  notes : String
  kitchen_station : Option String
  preparation_time : Nat
  deriving Repr, DecidableEq

/-- Display form of the possibly missing item key in the "not found" error
(Python interpolates `None`). -/
def showOptName (n : Option String) : String :=
  match n with
  | none => "None"
  | some s => s

/-- `validate_order_items(items, branch)` from `api/order.py`. The catalog
lookup (`frappe.db.get_value("Menu Item", ...)`) and the stock check
(`check_item_availability(item_code, branch)`, `api/menu.py`) are external
collaborators, passed as `lookup` and `avail`. Returns
`(validated, errors)` with both lists in source order. -/
def validate_order_items (lookup : String → Option MenuItem)
    (avail : String → Bool) :
    List RequestedItem → List ValidatedItem × List String
  | [] => ([], [])
  | r :: rest =>
    let tail := validate_order_items lookup avail rest
    let menu_item_name := orOptStr r.item r.menu_item
    if r.qty < 1 then tail
    else
      match (match menu_item_name with
             | some n => lookup n
             | none => none) with
      | none => (tail.1, ("Item not found: " ++ showOptName menu_item_name) :: tail.2)
      | some mi =>
        if mi.enabled = false then
          (tail.1, ("Item not available: " ++ mi.item_name) :: tail.2)
        else if avail mi.item_code = false then
          (tail.1, ("Item out of stock: " ++ mi.item_name) :: tail.2)
        else
          let modifier_price := (r.modifiers.map fun m => flt (m.additional_price.getD 0)).sum
          let unit_price := flt mi.price + modifier_price
          let total := unit_price * (r.qty : ℚ)
          ({ menu_item := mi.name
             item_code := mi.item_code
             item_name := mi.item_name
             item_name_ar := mi.item_name_ar
             qty := r.qty
             rate := unit_price
             total := total
             modifiers := r.modifiers
             notes := r.notes
             kitchen_station := mi.kitchen_station
             preparation_time := orFalsyNat mi.preparation_time_minutes 10 } :: tail.1,
           tail.2)

/-! ### order.py: totals of `place_order` -/

/-- The `Restaurant Settings` fields read by the totals computations.
Unset singles are `none`. -/
structure Settings where
  service_charge_percent : Option ℚ
  vat_percent : Option ℚ
  deriving Repr, DecidableEq

/-- A `Restaurant Order Item` row as appended by `place_order`
(`tip`/`discount`-irrelevant copies such as localized names and modifier JSON
are omitted; `name` is the framework row id referenced by KOT lines).
`tax_rate` is read by the doctype's `calculate_tax`; `place_order` never sets
it, so appended rows carry `none`. -/
structure OrderDocItem where
  name : String
  menu_item : String
  item_name : String
  qty : Int
  rate : ℚ
  amount : ℚ
  tax_rate : Option ℚ
  kitchen_station : Option String
  preparation_time : Nat
  status : String
  deriving Repr, DecidableEq

/-- The `Restaurant Order` document fields written by `place_order` or by the
doctype's `calculate_totals`. `tip_amount` and `discount_amount` are not
touched by `place_order`; they keep the doctype default `0`, as do
`total_qty` and `tax_amount`, which only `calculate_totals` writes. -/
structure RestaurantOrderDoc where
  status : String
  total_qty : ℚ
  subtotal : ℚ
  service_charge : ℚ
  service_charge_percent : ℚ
  vat : ℚ
  vat_percent : ℚ
  tax_amount : ℚ
  grand_total : ℚ
  tip_amount : ℚ
  discount_amount : ℚ
  estimated_preparation_time : Nat
  items : List OrderDocItem
  deriving Repr, DecidableEq

/-- The totals-and-document block of `place_order` (its lines 62–111): subtotal
over validated lines, `service_charge = flt(subtotal * (service_charge_percent
or 0) / 100)`, `vat = flt((subtotal + service_charge) * (vat_percent or 15) /
100)`, `grand_total = subtotal + service_charge + vat`, estimated preparation
time the maximum line preparation time (0 on no lines). Row names are assigned
by the framework only on insert, modelled as `""` here; `total_qty` and
`tax_amount` stay at the doctype default `0` until the insert-time hook
(`run_validate_hook` below) writes them. -/
def build_order (settings : Settings) (validated : List ValidatedItem) :
    RestaurantOrderDoc :=
  let subtotal := (validated.map fun i => i.total).sum
  let service_charge := flt (subtotal * orFalsyQ settings.service_charge_percent 0 / 100)
  let vat := flt ((subtotal + service_charge) * orFalsyQ settings.vat_percent 15 / 100)
  let grand_total := subtotal + service_charge + vat
  { status := "New"
    total_qty := 0
    tax_amount := 0
    subtotal := subtotal
    service_charge := service_charge
    service_charge_percent := orFalsyQ settings.service_charge_percent 0
    vat := vat
    vat_percent := orFalsyQ settings.vat_percent 15
    grand_total := grand_total
    tip_amount := 0
    discount_amount := 0
    estimated_preparation_time :=
      (validated.map fun i => i.preparation_time).foldl max 0
    items := validated.map fun i =>
      { name := ""
        menu_item := i.menu_item
        item_name := i.item_name
        qty := i.qty
        rate := i.rate
        amount := i.total
        tax_rate := none
        kitchen_station := i.kitchen_station
        preparation_time := i.preparation_time
        status := "Pending" } }

/-! ### restaurant_order.py: `calculate_totals` -/

/-- A `Restaurant Order Item` row as read by `calculate_totals`
(rate, qty, and the per-item `tax_rate`). -/
structure CTItem where
  rate : ℚ
  qty : ℚ
  tax_rate : Option ℚ
  deriving Repr, DecidableEq

/-- The totals written by `RestaurantOrder.calculate_totals`. -/
structure CTotals where
  total_qty : ℚ
  subtotal : ℚ
  service_charge : ℚ
  tax_amount : ℚ
  grand_total : ℚ
  deriving Repr, DecidableEq

/-- `RestaurantOrder.calculate_tax`: per-item tax, skipping falsy rates. -/
def calculate_tax (items : List CTItem) : ℚ :=
  (items.map fun i =>
    match i.tax_rate with
    | none => 0
    | some r => if r = 0 then 0 else flt (flt i.rate * flt i.qty) * flt r / 100).sum

/-- `RestaurantOrder.calculate_totals` (doctype hook): recomputes line amounts,
quantities and subtotal, applies the service charge when the configured percent
is truthy, takes per-item tax from `calculate_tax`, and sets
`grand_total = subtotal + tax_amount + service_charge + tip_amount -
discount_amount`. -/
def calculate_totals (items : List CTItem) (settings : Settings)
    (tip_amount discount_amount : ℚ) : CTotals :=
  let subtotal := (items.map fun i => flt (flt i.rate * flt i.qty)).sum
  let service_charge :=
    match settings.service_charge_percent with
    | none => 0
    | some p => if p = 0 then 0 else flt subtotal * flt p / 100
  let tax_amount := calculate_tax items
  { total_qty := (items.map fun i => flt i.qty).sum
    subtotal := subtotal
    service_charge := service_charge
    tax_amount := tax_amount
    grand_total :=
      flt subtotal + flt tax_amount + flt service_charge +
        flt tip_amount - flt discount_amount }

/-- View of a `Restaurant Order Item` row as `calculate_totals` reads it. -/
def ctItemOfDocItem (i : OrderDocItem) : CTItem :=
  { rate := i.rate, qty := flt (i.qty : ℚ), tax_rate := i.tax_rate }

/-- The framework dispatch of `RestaurantOrder.validate` on `order.insert()`:
`validate` calls `calculate_totals` (restaurant_order.py:11-48), which
recomputes each line's `amount`, `total_qty`, `subtotal`, `service_charge`,
the per-item `tax_amount`, and overwrites `grand_total` with
`subtotal + tax_amount + service_charge + tip_amount - discount_amount` —
discarding the VAT-based total `place_order` had set (`vat` itself is not a
field `calculate_totals` writes, so it keeps `place_order`'s value). -/
def run_validate_hook (settings : Settings) (doc : RestaurantOrderDoc) :
    RestaurantOrderDoc :=
  let t := calculate_totals (doc.items.map ctItemOfDocItem) settings
    doc.tip_amount doc.discount_amount
  { doc with
    items := doc.items.map fun i => { i with amount := flt i.rate * flt (i.qty : ℚ) }
    total_qty := t.total_qty
    subtotal := t.subtotal
    service_charge := t.service_charge
    tax_amount := t.tax_amount
    grand_total := t.grand_total }

/-- Result envelope of `place_order`: either a failure message with the
collected error strings (no order document created), or the inserted
(post-hook) order document together with the `grand_total` value of the
response payload, which is the local variable computed before the insert. -/
inductive PlaceResult where
  | failure (message : String) (errors : List String)
  | ok (order : RestaurantOrderDoc) (returned_grand_total : ℚ)
  deriving Repr, DecidableEq

/-- `place_order` from `api/order.py`, from the `items` check on (the table /
session lookup and the post-insert notifications are external): empty payload
fails, any validation error fails with `message = errors[0]` and the full
error list, otherwise the built order document is inserted —
`order.insert()` running the doctype's `validate` hook, so the persisted
document is `run_validate_hook` of the built one — and the response carries
the pre-insert `grand_total` local. -/
def place_order (lookup : String → Option MenuItem) (avail : String → Bool)
    (settings : Settings) (items : List RequestedItem) : PlaceResult :=
  if items.isEmpty then .failure "No items in order" []
  else
    let validated := (validate_order_items lookup avail items).1
    let item_errors := (validate_order_items lookup avail items).2
    match item_errors with
    | e :: _ => .failure e item_errors
    | [] =>
      .ok (run_validate_hook settings (build_order settings validated))
        (build_order settings validated).grand_total

/-! ### order.py: ticket fan-out -/

/-- Station of an order line at placement fan-out:
`item.kitchen_station or "Main Kitchen"`. -/
def stationOfDoc (i : OrderDocItem) : String :=
  i.kitchen_station.getD "Main Kitchen"

/-- Station of a validated line at append fan-out:
`item["kitchen_station"] or "Main Kitchen"`. -/
def stationOfValidated (i : ValidatedItem) : String :=
  i.kitchen_station.getD "Main Kitchen"

/-- Keys of a Python dict built by insertion: the distinct values in order of
first occurrence. -/
def firstOccurrences : List String → List String
  | [] => []
  | s :: rest => s :: (firstOccurrences rest).filter (fun x => x ≠ s)

/-- `create_kitchen_orders(order)` from `api/order.py`: group the order's lines
by station (dict insertion order), one new `Kitchen Order` per station holding
one line per grouped order line, each KOT line back-referencing its
`Restaurant Order Item` row via `order_item`. -/
def create_kitchen_orders (orderName : String) (items : List OrderDocItem) :
    List KOT :=
  (firstOccurrences (items.map stationOfDoc)).map fun st =>
    { name := ""
      restaurant_order := orderName
      kitchen_station := st
      status := "New"
      priority := "Normal"
      is_additional := false
      started_at := none
      completed_at := none
      served_at := none
      items := (items.filter fun i => stationOfDoc i = st).map fun i =>
        { name := ""
          order_item := some i.name
          menu_item := i.menu_item
          item_name := i.item_name
          qty := i.qty
          status := "Pending"
          started_at := none
          completed_at := none } }

/-- `create_kitchen_orders_for_items(order, new_items)` from `api/order.py`:
same grouping over only the newly appended (validated) lines, tickets marked
`is_additional = 1`; the appended KOT lines carry no `order_item`
back-reference. -/
def create_kitchen_orders_for_items (orderName : String)
    (new_items : List ValidatedItem) : List KOT :=
  (firstOccurrences (new_items.map stationOfValidated)).map fun st =>
    { name := ""
      restaurant_order := orderName
      kitchen_station := st
      status := "New"
      priority := "Normal"
      is_additional := true
      started_at := none
      completed_at := none
      served_at := none
      items := (new_items.filter fun i => stationOfValidated i = st).map fun i =>
        { name := ""
          order_item := none
          menu_item := i.menu_item
          item_name := i.item_name
          qty := i.qty
          status := "Pending"
          started_at := none
          completed_at := none } }

/-! ### Concrete fixtures used by witnesses and counterexamples -/

/-- An enabled, in-stock menu item priced 100, prepared at the grill. -/
def exBurger : MenuItem :=
  { name := "Burger"
    item_code := "BRG"
    item_name := "Burger"
    item_name_ar := "Burger AR"
    price := 100
    enabled := true
    kitchen_station := some "Grill"
    preparation_time_minutes := some 12 }

/-- A catalog holding exactly `exBurger`. -/
def exLookup : String → Option MenuItem :=
  fun n => if n = "Burger" then some exBurger else none

/-- Everything in stock. -/
def exAvail : String → Bool := fun _ => true

/-- Settings with a 10% service charge and 15% VAT. -/
def exSettings : Settings :=
  { service_charge_percent := some 10, vat_percent := some 15 }

/-- One requested burger. -/
def exRequested : RequestedItem :=
  { item := some "Burger", menu_item := none, qty := 1, modifiers := [], notes := "" }

/-- A validated 100.00 line routed to the grill, as produced by validation. -/
def exValidated : ValidatedItem :=
  { menu_item := "Burger"
    item_code := "BRG"
    item_name := "Burger"
    item_name_ar := "Burger AR"
    qty := 1
    rate := 100
    total := 100
    modifiers := []
    notes := ""
    kitchen_station := some "Grill"
    preparation_time := 12 }

/-- A KOT line in a given status, row name `n`. -/
def exLine (n status : String) : KOTItem :=
  { name := n
    order_item := some ("oi-" ++ n)
    menu_item := "Burger"
    item_name := "Burger"
    qty := 1
    status := status
    started_at := none
    completed_at := none }

/-- A three-line ticket with the given line statuses. -/
def exKot3 (s1 s2 s3 : String) : KOT :=
  { name := "KOT-1"
    restaurant_order := "ORD-1"
    kitchen_station := "Grill"
    status := "Preparing"
    priority := "Normal"
    is_additional := false
    started_at := some 1
    completed_at := none
    served_at := none
    items := [exLine "r1" s1, exLine "r2" s2, exLine "r3" s3] }

/-- A served single-line ticket of order `ORD-1`. -/
def exKotServed : KOT :=
  { name := "KOT-2"
    restaurant_order := "ORD-1"
    kitchen_station := "Grill"
    status := "Served"
    priority := "Normal"
    is_additional := false
    started_at := some 1
    completed_at := some 2
    served_at := some 3
    items := [exLine "r1" "Served"] }

/-- Settings with both fee percentages unset. -/
def exSettingsUnset : Settings :=
  { service_charge_percent := none, vat_percent := none }

/-- A requested entry naming an item absent from the catalog. -/
def exBadRequested : RequestedItem :=
  { item := some "Pizza", menu_item := none, qty := 2, modifiers := [], notes := "" }

/-- A zero-quantity entry (also naming an unknown item): dropped silently. -/
def exZeroQty : RequestedItem :=
  { item := some "Pizza", menu_item := none, qty := 0, modifiers := [], notes := "" }

/-- An order line routed to station `st` (or none). -/
def exDocItem (n : String) (st : Option String) : OrderDocItem :=
  { name := n
    menu_item := "Burger"
    item_name := "Burger"
    qty := 1
    rate := 100
    amount := 100
    tax_rate := none
    kitchen_station := st
    preparation_time := 12
    status := "Pending" }

/-- Two order lines, one at the grill, one with no station. -/
def exDocItems : List OrderDocItem :=
  [exDocItem "i1" (some "Grill"), exDocItem "i2" none]

/-- The ticket produced by `create_kitchen_orders_for_items "ORD-1" [exValidated]`. -/
def exKotAdditional : KOT :=
  { name := ""
    restaurant_order := "ORD-1"
    kitchen_station := "Grill"
    status := "New"
    priority := "Normal"
    is_additional := true
    started_at := none
    completed_at := none
    served_at := none
    items := [{ name := ""
                order_item := none
                menu_item := "Burger"
                item_name := "Burger"
                qty := 1
                status := "Pending"
                started_at := none
                completed_at := none }] }

/-! ### Helper lemmas -/

theorem mem_firstOccurrences {s : String} :
    ∀ l : List String, s ∈ firstOccurrences l ↔ s ∈ l := by
  intro l
  induction l with
  | nil => simp [firstOccurrences]
  | cons a rest ih =>
    by_cases h : s = a
    · subst h; simp [firstOccurrences]
    · simp [firstOccurrences, List.mem_filter, h, ih]

theorem nodup_firstOccurrences : ∀ l : List String, (firstOccurrences l).Nodup := by
  intro l
  induction l with
  | nil => simp [firstOccurrences]
  | cons a rest ih =>
    refine List.nodup_cons.2 ⟨?_, ih.filter _⟩
    intro hmem
    have h := (List.mem_filter.1 hmem).2
    simp at h

theorem mem_zip_map {α β : Type} {f : α → β} :
    ∀ (l : List α) (p : α × β), p ∈ l.zip (l.map f) → p.2 = f p.1 := by
  intro l
  induction l with
  | nil => simp
  | cons x rest ih =>
    intro p h
    simp only [List.map_cons, List.zip_cons_cons] at h
    rcases List.mem_cons.1 h with h1 | h2
    · subst h1; rfl
    · exact ih p h2

theorem filterMap_order_item_nil :
    ∀ ls : List KOTItem, (∀ l ∈ ls, l.order_item = none) →
      ls.filterMap (fun i => i.order_item) = [] := by
  intro ls
  induction ls with
  | nil => intro _; rfl
  | cons x rest ih =>
    intro h
    rw [List.filterMap_cons, h x (List.mem_cons_self x rest)]
    exact ih fun l hl => h l (List.mem_cons_of_mem x hl)

/-! ## Claims -/

/-- C1: for every order and non-empty list of its tickets' statuses, the
reconciler (`update_restaurant_order_status`) recomputes the order status by
the exact first-match precedence: all `Ready` → `Ready`; else any `Preparing` →
`Preparing`; else all `New` → `Confirmed`; else (mixed) → `Preparing`. In
particular `["Ready", "New"]` gives `Preparing`, never `Confirmed`. -/
theorem reconciler_precedence (orderStatus : String) (ss : List String)
    (hne : ss ≠ []) (hns : orderStatus ∉ sticky_statuses) :
    update_restaurant_order_status orderStatus ss = reconcile_status ss
    ∧ ((∀ s ∈ ss, s = "Ready") → reconcile_status ss = "Ready")
    ∧ ((¬ ∀ s ∈ ss, s = "Ready") → (∃ s ∈ ss, s = "Preparing") →
        reconcile_status ss = "Preparing")
    ∧ ((∀ s ∈ ss, s = "New") → reconcile_status ss = "Confirmed")
    ∧ ((¬ ∀ s ∈ ss, s = "Ready") → (¬ ∃ s ∈ ss, s = "Preparing") →
        (¬ ∀ s ∈ ss, s = "New") → reconcile_status ss = "Preparing")
    ∧ (reconcile_status ["Ready", "New"] = "Preparing"
        ∧ reconcile_status ["Ready", "New"] ≠ "Confirmed") := by
  refine ⟨?_, ?_, ?_, ?_, ?_, by decide⟩
  · simp [update_restaurant_order_status, List.isEmpty_iff, hne, hns]
  · intro h
    simp only [reconcile_status]
    rw [if_pos]
    simpa [List.all_eq_true] using h
  · intro hnr hp
    simp only [reconcile_status]
    rw [if_neg, if_pos]
    · simpa [List.any_eq_true] using hp
    · simpa [List.all_eq_true] using hnr
  · intro h
    obtain ⟨s0, hs0⟩ := List.exists_mem_of_ne_nil ss hne
    simp only [reconcile_status]
    rw [if_neg, if_neg, if_pos]
    · simpa [List.all_eq_true] using h
    · simp only [List.any_eq_true, decide_eq_true_eq]
      rintro ⟨s, hmem, hprep⟩
      exact absurd (hprep ▸ h s hmem) (by decide)
    · simp only [List.all_eq_true, decide_eq_true_eq]
      intro hall
      exact absurd ((h s0 hs0) ▸ hall s0 hs0) (by decide)
  · intro hnr hnp hnn
    simp only [reconcile_status]
    rw [if_neg, if_neg, if_neg]
    · simpa [List.all_eq_true] using hnn
    · simpa [List.any_eq_true] using hnp
    · simpa [List.all_eq_true] using hnr

/-- Witness for C1 at the concrete mixed pair of tickets `["Ready", "New"]` on
an order in status `"Confirmed"`. -/
theorem reconciler_precedence_witness :
    update_restaurant_order_status "Confirmed" ["Ready", "New"] = "Preparing" := by
  have h := reconciler_precedence "Confirmed" ["Ready", "New"]
    (by decide) (by decide)
  rw [h.1, h.2.2.2.2.2.1]

/-- C2 counterexample: the claim says no ticket-driven status update after
`update_order_status`, `bump_order` or `recall_order` ever overwrites an order
in `Served`/`Completed`/`Cancelled`/`Paid`. But `recall_order` writes the
parent order's status to `"Ready"` unconditionally, and `bump_order` writes
`"Served"` whenever every ticket of the order is `Served`/`Cancelled` — with no
check of the current order status. Recalling the served ticket `exKotServed`
of an order already `"Paid"` overwrites `"Paid"` with `"Ready"`. -/
theorem sticky_statuses_counterexample :
    (recall_kot exKotServed).status = "Ready"
    ∧ recall_order_status_write "Paid" = "Ready"
    ∧ recall_order_status_write "Paid" ≠ "Paid"
    ∧ bump_order_status_write [] "Paid" = "Served"
    ∧ bump_order_status_write [] "Paid" ≠ "Paid" := by
  decide

/-- C2 (amended): the reconciler `update_restaurant_order_status` — the
ticket-driven update run after `update_order_status` — never overwrites an
order whose status is `Served`, `Completed`, `Cancelled` or `Paid`. However
`bump_order` and `recall_order` write the order status directly without this
guard: recall unconditionally sets it to `"Ready"` and bump sets it to
`"Served"` once every ticket of the order is `Served`/`Cancelled`, even if the
order is already `Paid`. -/
theorem sticky_statuses_reconciler (orderStatus : String) (ss : List String)
    (h : orderStatus ∈ sticky_statuses) :
    update_restaurant_order_status orderStatus ss = orderStatus := by
  by_cases he : ss.isEmpty <;> simp [update_restaurant_order_status, he, h]

/-- Witness for C2 (amended): a `"Paid"` order with one `"New"` ticket is left
`"Paid"` by the reconciler. -/
theorem sticky_statuses_reconciler_witness :
    update_restaurant_order_status "Paid" ["New"] = "Paid" :=
  sticky_statuses_reconciler "Paid" ["New"] (by decide)

/-- C3 counterexample: the claim says the persisted and returned grand total
both satisfy `grand_total = subtotal + service_charge + tax + tip - discount`
with tax computed on `subtotal + service_charge`, 126.50 in the concrete
scenario. But `order.insert()` runs the doctype's `validate` hook, whose
`calculate_totals` overwrites the persisted grand total with
`subtotal + per-item tax + service_charge + tip - discount`: on the concrete
100.00 placement under a 10% service charge and 15% VAT, the inserted order
document that `place_order` persists carries `grand_total = 110` (the appended
items have no `tax_rate`, so the per-item tax is 0), not 126.50, and its tax
is not 15% of `subtotal + service_charge` — only the response payload still
reports 126.50. -/
theorem grand_total_persisted_counterexample :
    (run_validate_hook exSettings (build_order exSettings [exValidated])).grand_total
      = 110
    ∧ (run_validate_hook exSettings (build_order exSettings [exValidated])).grand_total
        ≠ 253 / 2
    ∧ (run_validate_hook exSettings (build_order exSettings [exValidated])).tax_amount
        ≠ ((run_validate_hook exSettings (build_order exSettings [exValidated])).subtotal
            + (run_validate_hook exSettings
                (build_order exSettings [exValidated])).service_charge)
          * 15 / 100
    ∧ place_order exLookup exAvail exSettings [exRequested]
        = .ok (run_validate_hook exSettings (build_order exSettings [exValidated]))
            (253 / 2) := by
  have hval : validate_order_items exLookup exAvail [exRequested]
      = ([exValidated], []) := by
    norm_num [validate_order_items, exRequested, exLookup, exBurger, exValidated,
      exAvail, orOptStr, orFalsyNat, flt]
  refine ⟨?_, ?_, ?_, ?_⟩
  · norm_num [run_validate_hook, calculate_totals, calculate_tax, ctItemOfDocItem,
      build_order, exSettings, exValidated, orFalsyQ, flt]
  · norm_num [run_validate_hook, calculate_totals, calculate_tax, ctItemOfDocItem,
      build_order, exSettings, exValidated, orFalsyQ, flt]
  · norm_num [run_validate_hook, calculate_totals, calculate_tax, ctItemOfDocItem,
      build_order, exSettings, exValidated, orFalsyQ, flt]
  · have hgt : (build_order exSettings [exValidated]).grand_total = 253 / 2 := by
      norm_num [build_order, exSettings, exValidated, orFalsyQ, flt]
    simp [place_order, hval, hgt]

/-- C3 (amended): for every valid order placement, the grand total computed
and RETURNED by `place_order` satisfies `grand_total = subtotal +
service_charge + vat + tip - discount` (tip and discount are 0 on a fresh
order) with the VAT computed on `subtotal + service_charge` — 10.00 / 16.50 /
126.50 on the concrete 100.00 scenario. The PERSISTED grand total, however,
is overwritten by the insert-time `validate` hook (`calculate_totals`) to
`subtotal + per-item tax + service_charge + tip - discount`, where the tax is
the per-item `Σ amount * tax_rate / 100` rather than a percentage of
`subtotal + service_charge`; on the same scenario the persisted grand total
is 110.00, the appended items carrying no `tax_rate`. -/
theorem grand_total_formula :
    (∀ (settings : Settings) (validated : List ValidatedItem),
      (build_order settings validated).grand_total
        = (build_order settings validated).subtotal
          + (build_order settings validated).service_charge
          + (build_order settings validated).vat
          + (build_order settings validated).tip_amount
          - (build_order settings validated).discount_amount
      ∧ (build_order settings validated).vat
        = ((build_order settings validated).subtotal
            + (build_order settings validated).service_charge)
          * orFalsyQ settings.vat_percent 15 / 100
      ∧ (build_order settings validated).tip_amount = 0
      ∧ (build_order settings validated).discount_amount = 0)
    ∧ (∀ (items : List CTItem) (settings : Settings) (tip discount : ℚ),
        (calculate_totals items settings tip discount).grand_total
          = (calculate_totals items settings tip discount).subtotal
            + (calculate_totals items settings tip discount).service_charge
            + (calculate_totals items settings tip discount).tax_amount
            + tip - discount)
    ∧ (∀ (settings : Settings) (validated : List ValidatedItem),
        (run_validate_hook settings (build_order settings validated)).grand_total
          = (run_validate_hook settings (build_order settings validated)).subtotal
            + (run_validate_hook settings (build_order settings validated)).service_charge
            + (run_validate_hook settings (build_order settings validated)).tax_amount
            + (build_order settings validated).tip_amount
            - (build_order settings validated).discount_amount
        ∧ (run_validate_hook settings (build_order settings validated)).tax_amount
            = calculate_tax
                ((build_order settings validated).items.map ctItemOfDocItem))
    ∧ ((build_order exSettings [exValidated]).subtotal = 100
        ∧ (build_order exSettings [exValidated]).service_charge = 10
        ∧ (build_order exSettings [exValidated]).vat = 33 / 2
        ∧ (build_order exSettings [exValidated]).grand_total = 253 / 2
        ∧ (run_validate_hook exSettings
            (build_order exSettings [exValidated])).grand_total = 110)
    ∧ place_order exLookup exAvail exSettings [exRequested]
        = .ok (run_validate_hook exSettings (build_order exSettings [exValidated]))
            ((build_order exSettings [exValidated]).grand_total) := by
  have hval : validate_order_items exLookup exAvail [exRequested]
      = ([exValidated], []) := by
    norm_num [validate_order_items, exRequested, exLookup, exBurger, exValidated,
      exAvail, orOptStr, orFalsyNat, flt]
  refine ⟨?_, ?_, ?_, ?_, ?_⟩
  · intro settings validated
    refine ⟨?_, rfl, rfl, rfl⟩
    simp [build_order, flt]
  · intro items settings tip discount
    simp only [calculate_totals, flt]
    ring
  · intro settings validated
    constructor
    · simp only [run_validate_hook, calculate_totals, flt]
      ring
    · simp only [run_validate_hook, calculate_totals, flt]
  · refine ⟨?_, ?_, ?_, ?_, ?_⟩ <;>
      norm_num [run_validate_hook, calculate_totals, calculate_tax, ctItemOfDocItem,
        build_order, exSettings, exValidated, orFalsyQ, flt]
  · simp [place_order, hval]

/-- C4 counterexample: the claim says an unset fee percentage defaults to 0 so
the corresponding charge contributes 0 to the grand total. With both
percentages unset, a 100.00 order still carries a VAT of 15 (the source
defaults `vat_percent` to 15, not 0), so the grand total is 115, not the
subtotal. -/
theorem unset_vat_counterexample :
    (build_order exSettingsUnset [exValidated]).vat = 15
    ∧ (build_order exSettingsUnset [exValidated]).vat ≠ 0
    ∧ (build_order exSettingsUnset [exValidated]).service_charge = 0
    ∧ (build_order exSettingsUnset [exValidated]).grand_total = 115
    ∧ (build_order exSettingsUnset [exValidated]).grand_total
        ≠ (build_order exSettingsUnset [exValidated]).subtotal := by
  norm_num [build_order, exSettingsUnset, exValidated, orFalsyQ, flt]

/-- C4 (amended): an unset service-charge percent defaults to 0, so the service
charge contributes 0; but an unset VAT percent defaults to 15, so the VAT
still contributes 15% of `subtotal + service_charge` to the grand total. -/
theorem unset_percent_defaults (settings : Settings)
    (validated : List ValidatedItem) :
    (settings.service_charge_percent = none →
      (build_order settings validated).service_charge = 0)
    ∧ (settings.vat_percent = none →
      (build_order settings validated).vat
        = ((build_order settings validated).subtotal
            + (build_order settings validated).service_charge) * 15 / 100) := by
  constructor
  · intro h
    simp [build_order, flt, orFalsyQ, h]
  · intro h
    simp [build_order, flt, orFalsyQ, h]

/-- Witness for C4 (amended) on the unset settings and the 100.00 line. -/
theorem unset_percent_defaults_witness :
    (build_order exSettingsUnset [exValidated]).service_charge = 0
    ∧ (build_order exSettingsUnset [exValidated]).vat
        = ((build_order exSettingsUnset [exValidated]).subtotal
            + (build_order exSettingsUnset [exValidated]).service_charge)
          * 15 / 100 := by
  have h := unset_percent_defaults exSettingsUnset [exValidated]
  exact ⟨h.1 rfl, h.2 rfl⟩

/-- Entries with `qty < 1` are skipped before any catalog lookup. -/
theorem validate_order_items_cons_drop (lookup : String → Option MenuItem)
    (avail : String → Bool) (r : RequestedItem) (rest : List RequestedItem)
    (h : r.qty < 1) :
    validate_order_items lookup avail (r :: rest)
      = validate_order_items lookup avail rest := by
  simp [validate_order_items, h]

/-- Dropping the `qty < 1` entries changes neither the validated lines nor the
errors. -/
theorem validate_order_items_filter_qty (lookup : String → Option MenuItem)
    (avail : String → Bool) :
    ∀ items : List RequestedItem,
      validate_order_items lookup avail (items.filter fun r => 1 ≤ r.qty)
        = validate_order_items lookup avail items := by
  intro items
  induction items with
  | nil => rfl
  | cons r rest ih =>
    by_cases h : 1 ≤ r.qty
    · rw [List.filter_cons_of_pos (by simpa using h)]
      simp only [validate_order_items]
      rw [ih]
    · rw [List.filter_cons_of_neg (by simpa using h),
        validate_order_items_cons_drop _ _ _ _ (by omega), ih]

/-- C5: validation silently drops every entry with `quantity < 1` (the outcome
— validated lines and errors alike — equals that of the `qty ≥ 1` sublist),
and whenever validation produces any error, `place_order` rejects the whole
placement with the collected error strings and creates no order. -/
theorem validation_drop_and_all_or_nothing (lookup : String → Option MenuItem)
    (avail : String → Bool) (settings : Settings)
    (items : List RequestedItem) :
    validate_order_items lookup avail (items.filter fun r => 1 ≤ r.qty)
      = validate_order_items lookup avail items
    ∧ (∀ e es, (validate_order_items lookup avail items).2 = e :: es →
        place_order lookup avail settings items = .failure e (e :: es)) := by
  refine ⟨validate_order_items_filter_qty lookup avail items, ?_⟩
  intro e es herr
  cases items with
  | nil => simp [validate_order_items] at herr
  | cons r rest =>
    simp [place_order, herr]

/-- Witness for C5: a zero-quantity entry naming an unknown item produces no
error nor line, and one unknown item among the entries rejects the whole
placement with that error. -/
theorem validation_drop_and_all_or_nothing_witness :
    validate_order_items exLookup exAvail
        ([exRequested, exZeroQty].filter fun r => 1 ≤ r.qty)
      = validate_order_items exLookup exAvail [exRequested, exZeroQty]
    ∧ place_order exLookup exAvail exSettings [exRequested, exBadRequested]
      = .failure "Item not found: Pizza" ["Item not found: Pizza"] := by
  refine ⟨(validation_drop_and_all_or_nothing exLookup exAvail exSettings
    [exRequested, exZeroQty]).1, ?_⟩
  exact (validation_drop_and_all_or_nothing exLookup exAvail exSettings
    [exRequested, exBadRequested]).2 "Item not found: Pizza" [] (by decide)

/-- C6: each fan-out run (all lines at placement via `create_kitchen_orders`,
or only the newly appended lines via `create_kitchen_orders_for_items`)
creates exactly one ticket per distinct station among those lines — lines with
no station fall back to the default station (`stationOfDoc` /
`stationOfValidated` embed the `or "Main Kitchen"` fallback) — each ticket
holding one line per grouped order line; appending zero lines creates zero
tickets, and append-time tickets are marked additional while placement
tickets are not. -/
theorem kitchen_order_fanout (orderName : String) (items : List OrderDocItem)
    (new_items : List ValidatedItem) :
    ((create_kitchen_orders orderName items).map fun k => k.kitchen_station).Nodup
    ∧ (∀ st, st ∈ ((create_kitchen_orders orderName items).map
          fun k => k.kitchen_station)
        ↔ ∃ i ∈ items, stationOfDoc i = st)
    ∧ (∀ kot ∈ create_kitchen_orders orderName items,
        kot.is_additional = false
        ∧ kot.items.map (fun l => l.menu_item)
            = (items.filter fun i => stationOfDoc i = kot.kitchen_station).map
                fun i => i.menu_item)
    ∧ ((create_kitchen_orders_for_items orderName new_items).map
        fun k => k.kitchen_station).Nodup
    ∧ (∀ st, st ∈ ((create_kitchen_orders_for_items orderName new_items).map
          fun k => k.kitchen_station)
        ↔ ∃ i ∈ new_items, stationOfValidated i = st)
    ∧ (∀ kot ∈ create_kitchen_orders_for_items orderName new_items,
        kot.is_additional = true
        ∧ kot.items.map (fun l => l.menu_item)
            = (new_items.filter fun i => stationOfValidated i = kot.kitchen_station).map
                fun i => i.menu_item)
    ∧ create_kitchen_orders_for_items orderName [] = [] := by
  have hmap1 : (create_kitchen_orders orderName items).map
      (fun k => k.kitchen_station) = firstOccurrences (items.map stationOfDoc) := by
    simp [create_kitchen_orders, List.map_map, Function.comp_def]
  have hmap2 : (create_kitchen_orders_for_items orderName new_items).map
      (fun k => k.kitchen_station)
      = firstOccurrences (new_items.map stationOfValidated) := by
    simp [create_kitchen_orders_for_items, List.map_map, Function.comp_def]
  refine ⟨?_, ?_, ?_, ?_, ?_, ?_, rfl⟩
  · rw [hmap1]; exact nodup_firstOccurrences _
  · intro st
    rw [hmap1, mem_firstOccurrences]
    simp [List.mem_map]
  · intro kot hkot
    simp only [create_kitchen_orders, List.mem_map] at hkot
    obtain ⟨st, _, rfl⟩ := hkot
    exact ⟨rfl, by simp [List.map_map, Function.comp_def]⟩
  · rw [hmap2]; exact nodup_firstOccurrences _
  · intro st
    rw [hmap2, mem_firstOccurrences]
    simp [List.mem_map]
  · intro kot hkot
    simp only [create_kitchen_orders_for_items, List.mem_map] at hkot
    obtain ⟨st, _, rfl⟩ := hkot
    exact ⟨rfl, by simp [List.map_map, Function.comp_def]⟩

/-- Witness for C6: two lines, one at the grill and one with no station,
fan out to tickets for `"Grill"` and the `"Main Kitchen"` fallback. -/
theorem kitchen_order_fanout_witness :
    "Main Kitchen" ∈ ((create_kitchen_orders "ORD-1" exDocItems).map
      fun k => k.kitchen_station)
    ∧ "Grill" ∈ ((create_kitchen_orders "ORD-1" exDocItems).map
      fun k => k.kitchen_station) := by
  constructor
  · exact ((kitchen_order_fanout "ORD-1" exDocItems []).2.1 "Main Kitchen").mpr
      ⟨exDocItem "i2" none, by decide, by decide⟩
  · exact ((kitchen_order_fanout "ORD-1" exDocItems []).2.1 "Grill").mpr
      ⟨exDocItem "i1" (some "Grill"), by decide, by decide⟩

/-- C7: a single-line update (`update_order_status` with an `item_id`) rewrites
only the matching line; the ticket is promoted to `Ready` (with a completion
stamp) exactly when all lines are `Ready` after the update, and otherwise the
ticket status and completion stamp are unchanged. -/
theorem single_line_ready_promotion (kot : KOT) (iid status : String) (t : Nat) :
    (update_order_status kot status (some iid) t).items
      = updateMatchingItem iid status t kot.items
    ∧ (((updateMatchingItem iid status t kot.items).all
          fun i => i.status = "Ready") = true →
        (update_order_status kot status (some iid) t).status = "Ready"
        ∧ (update_order_status kot status (some iid) t).completed_at = some t)
    ∧ (((updateMatchingItem iid status t kot.items).all
          fun i => i.status = "Ready") = false →
        (update_order_status kot status (some iid) t).status = kot.status
        ∧ (update_order_status kot status (some iid) t).completed_at
            = kot.completed_at) := by
  by_cases h : ((updateMatchingItem iid status t kot.items).all
      fun i => i.status = "Ready") = true
  · refine ⟨?_, fun _ => ⟨?_, ?_⟩, fun hf => absurd h (by simp [hf])⟩ <;>
      simp [update_order_status, h]
  · refine ⟨?_, fun ht => absurd ht h, fun _ => ⟨?_, ?_⟩⟩ <;>
      simp [update_order_status, h]

/-- Witness for C7 on a three-line ticket: with lines
`Ready, Pending, Pending`, marking the second line `Ready` (2 of 3 ready)
leaves the ticket status `"Preparing"`; with lines `Ready, Ready, Pending`,
marking the third line `Ready` promotes the ticket to `"Ready"`. -/
theorem single_line_ready_promotion_witness :
    (update_order_status (exKot3 "Ready" "Pending" "Pending") "Ready"
      (some "r2") 5).status = "Preparing"
    ∧ (update_order_status (exKot3 "Ready" "Ready" "Pending") "Ready"
      (some "r3") 5).status = "Ready" := by
  constructor
  · exact ((single_line_ready_promotion (exKot3 "Ready" "Pending" "Pending")
      "r2" "Ready" 5).2.2 (by decide)).1
  · exact ((single_line_ready_promotion (exKot3 "Ready" "Ready" "Pending")
      "r3" "Ready" 5).2.1 (by decide)).1

/-- C8: a ticket-level update to `Preparing` stamps the ticket's start time and
advances exactly the `Pending` lines to `Preparing` with a start stamp,
leaving all other lines untouched; an update to `Ready` stamps the ticket's
completion time and advances every non-`Ready` line to `Ready` with a
completion stamp, leaving `Ready` lines untouched. -/
theorem kot_level_status_cascade (kot : KOT) (t : Nat) :
    ((update_order_status kot "Preparing" none t).status = "Preparing"
      ∧ (update_order_status kot "Preparing" none t).started_at = some t
      ∧ ∀ p ∈ kot.items.zip (update_order_status kot "Preparing" none t).items,
          (p.1.status = "Pending" →
            p.2 = { p.1 with status := "Preparing", started_at := some t })
          ∧ (p.1.status ≠ "Pending" → p.2 = p.1))
    ∧ ((update_order_status kot "Ready" none t).status = "Ready"
      ∧ (update_order_status kot "Ready" none t).completed_at = some t
      ∧ ∀ p ∈ kot.items.zip (update_order_status kot "Ready" none t).items,
          (p.1.status ≠ "Ready" →
            p.2 = { p.1 with status := "Ready", completed_at := some t })
          ∧ (p.1.status = "Ready" → p.2 = p.1)) := by
  constructor
  · have hitems : (update_order_status kot "Preparing" none t).items
        = kot.items.map fun i =>
            if i.status = "Pending" then
              { i with status := "Preparing", started_at := some t }
            else i := rfl
    refine ⟨rfl, rfl, ?_⟩
    intro p hp
    rw [hitems] at hp
    have h2 := mem_zip_map _ p hp
    constructor
    · intro h; rw [h2, if_pos h]
    · intro h; rw [h2, if_neg h]
  · have hitems : (update_order_status kot "Ready" none t).items
        = kot.items.map fun i =>
            if i.status = "Ready" then i
            else { i with status := "Ready", completed_at := some t } := rfl
    refine ⟨rfl, rfl, ?_⟩
    intro p hp
    rw [hitems] at hp
    have h2 := mem_zip_map _ p hp
    constructor
    · intro h; rw [h2, if_neg h]
    · intro h; rw [h2, if_pos h]

/-- Witness for C8 on a `Pending, Preparing, Ready` ticket at instant 7: the
`Preparing` update starts the ticket and advances the pending first line,
and the `Ready` update stamps completion. -/
theorem kot_level_status_cascade_witness :
    (update_order_status (exKot3 "Pending" "Preparing" "Ready") "Preparing"
      none 7).status = "Preparing"
    ∧ ({ exLine "r1" "Pending" with
          status := "Preparing", started_at := some 7 } : KOTItem).status
        = "Preparing"
    ∧ (update_order_status (exKot3 "Pending" "Preparing" "Ready") "Ready"
      none 7).completed_at = some 7 := by
  have h := kot_level_status_cascade (exKot3 "Pending" "Preparing" "Ready") 7
  have hline := (h.1.2.2 (exLine "r1" "Pending",
    { exLine "r1" "Pending" with status := "Preparing", started_at := some 7 })
    (by decide)).1 (by decide)
  exact ⟨h.1.1, by rw [← hline], h.2.2.1⟩

/-- C9: recalling a ticket resets its status to `Ready`, clears its served
timestamp, and resets every one of its lines to `Ready`. -/
theorem recall_resets (kot : KOT) :
    (recall_kot kot).status = "Ready"
    ∧ (recall_kot kot).served_at = none
    ∧ ∀ l ∈ (recall_kot kot).items, l.status = "Ready" := by
  refine ⟨rfl, rfl, ?_⟩
  intro l hl
  simp only [recall_kot, List.mem_map] at hl
  obtain ⟨i, _, rfl⟩ := hl
  rfl

/-- Witness for C9 on the served one-line ticket `exKotServed`. -/
theorem recall_resets_witness :
    (recall_kot exKotServed).status = "Ready"
    ∧ (recall_kot exKotServed).served_at = none
    ∧ ({ exLine "r1" "Served" with status := "Ready" } : KOTItem).status
        = "Ready" := by
  have h := recall_resets exKotServed
  exact ⟨h.1, h.2.1, h.2.2 _ (by decide)⟩

/-- C10: every ticket created by appending items
(`create_kitchen_orders_for_items`) carries lines with no `order_item`
back-reference; bumping such a ticket serves the ticket and its own lines but
performs no `Restaurant Order Item` status write, leaving every order item of
the parent order unchanged. -/
theorem additional_kot_no_backref (orderName : String)
    (new_items : List ValidatedItem) (t : Nat) (itemStatus : String → String) :
    ∀ kot ∈ create_kitchen_orders_for_items orderName new_items,
      (∀ l ∈ kot.items, l.order_item = none)
      ∧ (bump_kot kot t).status = "Served"
      ∧ (∀ l ∈ (bump_kot kot t).items, l.status = "Served")
      ∧ bump_order_item_writes kot t = []
      ∧ apply_bump_order_item_writes kot t itemStatus = itemStatus := by
  intro kot hkot
  simp only [create_kitchen_orders_for_items, List.mem_map] at hkot
  obtain ⟨st, _, rfl⟩ := hkot
  have hnone : ∀ l ∈ ((new_items.filter
      fun i => stationOfValidated i = st).map fun i =>
        ({ name := ""
           order_item := none
           menu_item := i.menu_item
           item_name := i.item_name
           qty := i.qty
           status := "Pending"
           started_at := none
           completed_at := none } : KOTItem)), l.order_item = none := by
    intro l hl
    simp only [List.mem_map] at hl
    obtain ⟨i, _, rfl⟩ := hl
    rfl
  have hwrites : bump_order_item_writes
      { name := ""
        restaurant_order := orderName
        kitchen_station := st
        status := "New"
        priority := "Normal"
        is_additional := true
        started_at := none
        completed_at := none
        served_at := none
        items := (new_items.filter fun i => stationOfValidated i = st).map
          fun i =>
            { name := ""
              order_item := none
              menu_item := i.menu_item
              item_name := i.item_name
              qty := i.qty
              status := "Pending"
              started_at := none
              completed_at := none } } t = [] := by
    apply filterMap_order_item_nil
    intro l hl
    simp only [bump_kot, List.mem_map] at hl
    obtain ⟨i, ⟨a, _, rfl⟩, rfl⟩ := hl
    rfl
  refine ⟨hnone, rfl, ?_, hwrites, ?_⟩
  · intro l hl
    simp only [bump_kot, List.mem_map] at hl
    obtain ⟨i, _, rfl⟩ := hl
    rfl
  · funext n
    simp [apply_bump_order_item_writes, hwrites]

/-- Witness for C10 on the ticket created by appending the 100.00 burger:
bumping it writes no `Restaurant Order Item` status. -/
theorem additional_kot_no_backref_witness :
    bump_order_item_writes exKotAdditional 9 = []
    ∧ apply_bump_order_item_writes exKotAdditional 9 id = id := by
  have h := additional_kot_no_backref "ORD-1" [exValidated] 9 id
    exKotAdditional (by decide)
  exact ⟨h.2.2.2.1, h.2.2.2.2⟩

end RestaurantPos
